import Mathlib

/-!
Verification of the `tldm` iteration-adapter and logging-redirection core
(`src/tldm/aliases.py`, `src/tldm/logging.py`) via a shallow embedding.

The progress-bar rendering classes (`tldm.std.tldm`, `tldm.notebook.tldm`)
are not part of the sources here; they are modelled from the spec's external
contract (constructible with an iterable and keyword configuration, iterable
yielding the underlying items unchanged, supporting `update()` and a
class-level `write()`).
-/

namespace Tldm

/-- A progress-bar backend class reference: the standard console class, the
notebook-widget class, or a caller-supplied custom class. -/
inductive TldmClass where
  | std
  | notebook
  | custom (id : Nat)
deriving DecidableEq, Repr

/-! ## Environment Selector (`_get_auto_tldm`, aliases.py lines 24-60) -/

/-- The process environment state observed by `_get_auto_tldm`'s probes.
Each field answers one step of the probing code:
`ipythonLoaded` — whether `"IPython"` is a key of `sys.modules`
(a missing key raises `KeyError`);
`getIPythonRaises` — whether calling `get_ipython()` (or reading `.config`)
raises an ordinary `Exception`;
`kernelAppInConfig` — whether `"IPKernelApp"` is in `get_ipython().config`;
`notebookModuleOk` — whether `from .notebook import WARN_NOIPYW` succeeds;
`iprogressOk` — whether `from .notebook import IProgress` succeeds. -/
structure Env where
  ipythonLoaded : Bool
  getIPythonRaises : Bool
  kernelAppInConfig : Bool
  notebookModuleOk : Bool
  iprogressOk : Bool
deriving DecidableEq, Repr

/-- Outcome of the `try:` body of `_get_auto_tldm`: either a selected class,
or an ordinary exception (KeyError / AttributeError / `ImportError("console")`
/ `ImportError("ipywidgets")` / probe failure), paired with the number of
warnings emitted before leaving the body. -/
def getAutoTldmBody (env : Env) : Except Unit TldmClass × Nat :=
  if !env.ipythonLoaded then (.error (), 0)
  else if env.getIPythonRaises then (.error (), 0)
  else if !env.kernelAppInConfig then (.error (), 0)
  else if !env.notebookModuleOk then (.error (), 0)
  else if !env.iprogressOk then (.error (), 1)
  else (.ok .notebook, 0)

/-- Result of `_get_auto_tldm()`: the chosen class and how many warnings
were emitted during the call. -/
structure SelectResult where
  cls : TldmClass
  warnings : Nat
deriving DecidableEq, Repr

/-- Function `_get_auto_tldm` (aliases.py lines 24-60): the probing body wrapped in
`try: ... except Exception: return tldm`, so every body exception collapses
to the standard class. -/
def getAutoTldm (env : Env) : SelectResult :=
  match getAutoTldmBody env with
  | (.ok c, w) => ⟨c, w⟩
  | (.error _, w) => ⟨.std, w⟩

/-- Whether the `try:` body of `_get_auto_tldm` raised (the exception the
`except Exception:` clause then catches). -/
def getAutoTldmBodyRaised (env : Env) : Bool :=
  match (getAutoTldmBody env).1 with
  | .error _ => true
  | .ok _ => false

/-! ## Module definition time (aliases.py line 64) -/

/-- The state of the `tldm.aliases` module after its body has executed:
the value bound to the module-level name `auto_tldm`, and how many times the
selector's probing body has run so far. -/
structure ModuleState where
  auto_tldm : TldmClass
  probeCount : Nat
deriving DecidableEq, Repr

/-- Execution of the module body of `aliases.py`: line 64 is
`auto_tldm = _get_auto_tldm()`, a single eager call to the selector at
module definition time. -/
def moduleInit (env : Env) : ModuleState :=
  { auto_tldm := (getAutoTldm env).cls, probeCount := 1 }

/-- The `if tldm_class is None: tldm_class = auto_tldm` step shared by the
adapter functions: an explicit class wins, else the module-level `auto_tldm`
binding is read.  Reading the binding runs no probing code, so the module
state is returned unchanged. -/
def resolveClass (mod : ModuleState) (tldm_class : Option TldmClass) :
    TldmClass × ModuleState :=
  match tldm_class with
  | some c => (c, mod)
  | none => (mod.auto_tldm, mod)

/-! ## Progress-bar instances (external contract, modelled from the spec) -/

/-- Modelled from the spec: an instance of the external progress-bar class
contract (`tldm.std.tldm` / `tldm.notebook.tldm` are not under the sources
verified here).  Constructed with an iterable and an optional expected
length; iterating it yields exactly the underlying items, in order. -/
structure PBarInstance (α : Type) where
  cls : TldmClass
  items : List α
  total : Option Nat
deriving DecidableEq, Repr

/-- Modelled from the spec: iterating a progress-bar instance yields the
wrapped iterable's items unchanged and in order. -/
def pbarIter (p : PBarInstance α) : List α := p.items

/-! ## `tenumerate` (aliases.py lines 67-83) -/

/-- Python's builtin `enumerate(xs, start)` over a finite iterable, with an
arbitrary integer start. -/
def pyEnumerate (start : Int) : List α → List (Int × α)
  | [] => []
  | x :: xs => (start, x) :: pyEnumerate (start + 1) xs

/-- Function `tenumerate(iterable, start, total, tldm_class, **kwargs)`:
resolve the class (explicit wins, else `auto_tldm`), wrap the iterable in
the progress-bar class forwarding `total`, and enumerate the wrapped
iterable from `start`.  Returns the yielded pairs, the constructed
progress-bar instance, and the module state after the call. -/
def tenumerate (mod : ModuleState) (iterable : List α) (start : Int := 0)
    (total : Option Nat := none) (tldm_class : Option TldmClass := none) :
    List (Int × α) × PBarInstance α × ModuleState :=
  let (cls, mod') := resolveClass mod tldm_class
  let p : PBarInstance α := { cls := cls, items := iterable, total := total }
  (pyEnumerate start (pbarIter p), p, mod')

/-! ## `tzip` (aliases.py lines 86-100) -/

/-- Function `tzip(iter1, iter2, **kwargs)` for two input iterables:
pop `tldm_class` from the kwargs (explicit wins, else `auto_tldm`), wrap
only the first iterable in the progress-bar class, and zip the wrapped
first iterable with the unwrapped second.  Returns the yielded tuples, the
constructed progress-bar instance, and the module state after the call. -/
def tzip (mod : ModuleState) (iter1 : List α) (iter2 : List β)
    (tldm_class : Option TldmClass := none) :
    List (α × β) × PBarInstance α × ModuleState :=
  let (cls, mod') := resolveClass mod tldm_class
  let p : PBarInstance α := { cls := cls, items := iter1, total := none }
  (List.zip (pbarIter p) iter2, p, mod')

/-! ## `tproduct` (aliases.py lines 113-142) -/

/-- How an input iterable answers `operator.length_hint`:
`fromLen` — it has `__len__` (hint is the true length);
`customHint n` — no `__len__`, but `__length_hint__` returns `n`;
`noHint` — neither hook exists, so `length_hint` returns its default, `0`
(e.g. a generator);
`badHint` — `__length_hint__` returns a non-integer, so `length_hint`
raises `TypeError`. -/
inductive HintBehavior where
  | fromLen
  | customHint (n : Nat)
  | noHint
  | badHint
deriving DecidableEq, Repr

/-- An input iterable as `tproduct` sees it: its items together with its
`operator.length_hint` behaviour. -/
structure PyIterable (α : Type) where
  items : List α
  hint : HintBehavior
deriving DecidableEq, Repr

/-- Semantics of `operator.length_hint(it)` with the default `0`: `.error ()` is a raised
`TypeError`. -/
def length_hint (it : PyIterable α) : Except Unit Nat :=
  match it.hint with
  | .fromLen => .ok it.items.length
  | .customHint n => .ok n
  | .noHint => .ok 0
  | .badHint => .error ()

/-- Semantics of `list(map(length_hint, iterables))`: the first raised `TypeError`
propagates out of the `list(...)` call. -/
def mapLengthHints : List (PyIterable α) → Except Unit (List Nat)
  | [] => .ok []
  | it :: rest =>
    match length_hint it, mapLengthHints rest with
    | .ok n, .ok ns => .ok (n :: ns)
    | .ok _, .error e => .error e
    | .error e, _ => .error e

/-- The arguments the progress-bar constructor receives inside `tproduct`. -/
structure CtorCall where
  cls : TldmClass
  total : Option Nat
deriving DecidableEq, Repr

/-- The total-computation and class-resolution prefix of `tproduct`
(aliases.py lines 124-138): pop `repeat` and `tldm_class` from the kwargs,
try `lens = list(map(length_hint, iterables))`; on `TypeError` set
`total = None` (leaving the caller's `total` kwarg, if any, untouched);
otherwise compute `total = (product of lens) ** repeat` and
`kwargs.setdefault("total", total)` (the caller's value wins).  Returns the
constructor call `tldm_class(**kwargs)` receives. -/
def tproductSetup (mod : ModuleState) (iterables : List (PyIterable α))
    (rep : Nat) (callerTotal : Option Nat)
    (tldm_class : Option TldmClass) : CtorCall × ModuleState :=
  let (cls, mod') := resolveClass mod tldm_class
  match mapLengthHints iterables with
  | .error _ => (⟨cls, callerTotal⟩, mod')
  | .ok lens =>
    (⟨cls, some (callerTotal.getD ((lens.foldl (· * ·) 1) ^ rep))⟩, mod')

/-- The Cartesian product of a list of finite iterables, in `itertools`
order: the first input varies slowest, the last varies fastest. -/
def listProd : List (List α) → List (List α)
  | [] => [[]]
  | xs :: rest => xs.flatMap (fun x => (listProd rest).map (x :: ·))

/-- Semantics of `itertools.product(*iterables, repeat=r)`: the whole argument tuple is
repeated `r` times. -/
def pyProduct (iterables : List (List α)) (rep : Nat) : List (List α) :=
  listProd (List.flatten (List.replicate rep iterables))

/-- The suspension state of the `tproduct` generator body
(`with tldm_class(**kwargs) as t: ... for val in it: yield val; t.update()`):
the tuples not yet yielded, the number of `t.update()` calls executed so
far, whether the generator is currently suspended at the `yield` (as opposed
to not yet started), and whether the `with` block has been exited (the
progress-bar instance released). -/
structure ProdGenState (α : Type) where
  pending : List (List α)
  updates : Nat
  started : Bool
  closed : Bool
deriving DecidableEq, Repr

namespace ProdGen

/-- The generator freshly created by a call to `tproduct`: nothing yielded,
no updates, the `with` block not yet exited. -/
def init (iterables : List (List α)) (rep : Nat) : ProdGenState α :=
  { pending := pyProduct iterables rep, updates := 0,
    started := false, closed := false }

/-- What one `next()` call on the generator returns. -/
inductive PullResult (α : Type) where
  | yielded (v : List α)
  | stopped
deriving DecidableEq, Repr

/-- One `next()` call: if the generator is suspended at the `yield`, the
body resumes with `t.update()` before the loop advances; if the loop is
exhausted, the `with` block exits (releasing the bar) and `StopIteration`
is raised. -/
def next (s : ProdGenState α) : PullResult α × ProdGenState α :=
  if s.closed then (.stopped, s)
  else
    let s1 := if s.started then { s with updates := s.updates + 1 } else s
    match s1.pending with
    | [] => (.stopped, { s1 with closed := true })
    | v :: rest => (.yielded v, { s1 with pending := rest, started := true })

/-- Abandoning iteration: the generator is finalized (`GeneratorExit` at the
`yield`), so the `with` block exits and the bar is released; no further
`t.update()` runs. -/
def close (s : ProdGenState α) : ProdGenState α := { s with closed := true }

/-- Consumption loop `runN s n`: the consumer performs `n` `next()` calls, collecting the
yielded tuples; it stops early if the generator stops. -/
def runN (s : ProdGenState α) : Nat → List (List α) × ProdGenState α
  | 0 => ([], s)
  | n + 1 =>
    match ProdGen.next s with
    | (.yielded v, s') =>
      let r := runN s' n
      (v :: r.1, r.2)
    | (.stopped, s') => ([], s')

end ProdGen

/-! ## Logging redirection (`src/tldm/logging.py`) -/

/-- The destination a logging handler writes to: one of the two standard
process output streams, or anything else (e.g. an open file). -/
inductive StreamId where
  | stdout
  | stderr
  | other (id : Nat)
deriving DecidableEq, Repr

/-- What kind of handler object a handler is: a plain `StreamHandler`-derived
handler, a `_TqdmLoggingHandler` bound to a progress-bar class (itself a
`StreamHandler` subclass), or a non-stream handler (e.g. `FileHandler`
would still be a stream handler in CPython, so "non-stream" here covers
handlers that are not `StreamHandler` instances at all). -/
inductive HandlerKind where
  | plainStream
  | tqdmRedirect (cls : TldmClass)
  | nonStream
deriving DecidableEq, Repr

/-- A logging handler object: `hid` is the object's identity, `stream` its
target stream, `formatter` its (optional) formatter's identity, `level` its
severity threshold. -/
structure Handler where
  hid : Nat
  kind : HandlerKind
  stream : StreamId
  formatter : Option Nat
  level : Nat
deriving DecidableEq, Repr

/-- Whether a handler counts as a `StreamHandler` instance
(`_TqdmLoggingHandler` subclasses `logging.StreamHandler`). -/
def Handler.isStream (h : Handler) : Bool :=
  match h.kind with
  | .plainStream => true
  | .tqdmRedirect _ => true
  | .nonStream => false

/-- Predicate `_is_console_logging_handler` (logging.py lines 33-37): a
`StreamHandler` whose stream is `sys.stdout` or `sys.stderr`. -/
def _is_console_logging_handler (h : Handler) : Bool :=
  h.isStream && (h.stream == .stdout || h.stream == .stderr)

/-- Helper `_get_first_found_console_logging_handler` (logging.py lines 40-46). -/
def _get_first_found_console_logging_handler (handlers : List Handler) :
    Option Handler :=
  handlers.find? _is_console_logging_handler

/-- A freshly constructed `_TqdmLoggingHandler(tqdm_class)`:
`logging.StreamHandler.__init__` with no argument targets `sys.stderr`,
with no formatter and level `NOTSET` (0). -/
def mkTqdmHandler (freshId : Nat) (cls : TldmClass) : Handler :=
  { hid := freshId, kind := .tqdmRedirect cls, stream := .stderr,
    formatter := none, level := 0 }

/-- The per-logger body of the entry loop of `logging_redirect_tqdm`
(logging.py lines 86-95): build a `_TqdmLoggingHandler`; if the logger has
a console handler, copy the first one's formatter, level and stream onto
it; then rebind `logger.handlers` to the non-console handlers followed by
the new handler. -/
def redirectHandlers (freshId : Nat) (cls : TldmClass)
    (handlers : List Handler) : List Handler :=
  let tqdm_handler := mkTqdmHandler freshId cls
  let tqdm_handler :=
    match _get_first_found_console_logging_handler handlers with
    | some orig =>
      { tqdm_handler with
        formatter := orig.formatter
        level := orig.level
        stream := orig.stream }
    | none => tqdm_handler
  handlers.filter (fun h => !_is_console_logging_handler h) ++ [tqdm_handler]

/-- How the `with` scope of `logging_redirect_tqdm` was left: the body
returned normally, or an exception propagated out of it. -/
inductive ExitPath where
  | normal
  | exception
deriving DecidableEq, Repr

/-- The `finally:` restore loop of `logging_redirect_tqdm` (lines 97-99):
`for logger, original_handlers in zip(loggers, original_handlers_list):
logger.handlers = original_handlers`.  `current` is each logger's handler
list when the scope exits; each is rebound to its snapshot. -/
def restoreHandlers (current snapshot : List (List Handler)) :
    List (List Handler) :=
  List.zipWith (fun _cur orig => orig) current snapshot

/-- A whole run of the `logging_redirect_tqdm` context manager
(logging.py lines 82-99) over the loggers' handler lists:
snapshot `original_handlers_list`, install the redirecting handlers, run
the body — which may rebind every logger's handler list arbitrarily
(`bodyFinal` is each logger's handler list at the moment the scope exits)
and may raise — and restore the snapshot in the `finally`, on both exit
paths.  Returns each logger's final handler list.  Fresh ids for the new
handlers start at `freshId0`. -/
def loggingRedirectRun (freshId0 : Nat) (cls : TldmClass)
    (initial : List (List Handler))
    (bodyFinal : List (List Handler)) (path : ExitPath) :
    List (List Handler) :=
  let original_handlers_list := initial
  let _entered := initial.mapIdx (fun i hs => redirectHandlers (freshId0 + i) cls hs)
  match path with
  | .normal => restoreHandlers bodyFinal original_handlers_list
  | .exception => restoreHandlers bodyFinal original_handlers_list

/-! ## `_TqdmLoggingHandler.emit` (logging.py lines 22-30) -/

/-- An exception raised by a step inside `emit`: `interrupt` stands for
`KeyboardInterrupt` / `SystemExit`, `error` for every other exception. -/
inductive PyExc where
  | interrupt
  | error
deriving DecidableEq, Repr

/-- The behaviour of the three fallible steps of `emit` on the record at
hand: `self.format(record)`, `self.tqdm_class.write(msg, file=self.stream)`
and `self.flush()`. -/
structure EmitOps where
  formatResult : Except PyExc String
  writeResult : String → Except PyExc Unit
  flushResult : Except PyExc Unit

/-- Observable effects of one `emit` call: the argument pair `write`
received (if it was called), whether `flush` was called, and whether
`self.handleError(record)` ran. -/
structure EmitTrace where
  writeCalledWith : Option (String × StreamId)
  flushCalled : Bool
  handledError : Bool
deriving DecidableEq, Repr

/-- How the `emit` call terminates: it returns to the logging machinery, or
it re-raises an interruption. -/
inductive EmitOutcome where
  | returned
  | raisedInterrupt
deriving DecidableEq, Repr

/-- Method `_TqdmLoggingHandler.emit`: format the record, forward the formatted
text to `tqdm_class.write` with the handler's stream, flush; re-raise
`KeyboardInterrupt` / `SystemExit`, route every other exception to
`self.handleError(record)`. -/
def emit (stream : StreamId) (ops : EmitOps) : EmitOutcome × EmitTrace :=
  match ops.formatResult with
  | .error .interrupt =>
    (.raisedInterrupt, ⟨none, false, false⟩)
  | .error .error =>
    (.returned, ⟨none, false, true⟩)
  | .ok msg =>
    match ops.writeResult msg with
    | .error .interrupt =>
      (.raisedInterrupt, ⟨some (msg, stream), false, false⟩)
    | .error .error =>
      (.returned, ⟨some (msg, stream), false, true⟩)
    | .ok () =>
      match ops.flushResult with
      | .error .interrupt =>
        (.raisedInterrupt, ⟨some (msg, stream), false, false⟩)
      | .error .error =>
        (.returned, ⟨some (msg, stream), false, true⟩)
      | .ok () =>
        (.returned, ⟨some (msg, stream), true, false⟩)

/-! ## Helper lemmas -/

/-- Fully draining the generator from a suspended state: one pull per
pending tuple plus one exhausting pull; every pull resumes with an
`update()`, so the final count is the initial count plus pulls. -/
lemma ProdGen.runN_suspended_full {α : Type} (l : List (List α)) (k : Nat) :
    ProdGen.runN ⟨l, k, true, false⟩ (l.length + 1) =
      (l, ⟨[], k + l.length + 1, true, true⟩) := by
  induction l generalizing k with
  | nil =>
    show ProdGen.runN ⟨[], k, true, false⟩ (0 + 1) = _
    have step : ProdGen.runN (⟨[], k, true, false⟩ : ProdGenState α) (0 + 1) =
        ([], ⟨[], k + 1, true, true⟩) := rfl
    rw [step]
    simp
  | cons x xs ih =>
    simp only [List.length_cons]
    have step : ProdGen.runN (⟨x :: xs, k, true, false⟩ : ProdGenState α)
        (xs.length + 1 + 1) =
        (x :: (ProdGen.runN ⟨xs, k + 1, true, false⟩ (xs.length + 1)).1,
         (ProdGen.runN ⟨xs, k + 1, true, false⟩ (xs.length + 1)).2) := rfl
    rw [step, ih (k + 1)]
    simp [ProdGenState.mk.injEq]
    omega

/-- Pulling `n ≤ pending` tuples from a suspended state yields the first
`n` pending tuples and performs exactly `n` updates, leaving the generator
suspended and the bar not yet released. -/
lemma ProdGen.runN_suspended_take {α : Type} (n : Nat) (l : List (List α))
    (k : Nat) (h : n ≤ l.length) :
    ProdGen.runN ⟨l, k, true, false⟩ n =
      (l.take n, ⟨l.drop n, k + n, true, false⟩) := by
  induction n generalizing l k with
  | zero => simp [ProdGen.runN]
  | succ n ih =>
    match l with
    | [] => simp at h
    | x :: xs =>
      simp only [List.length_cons, Nat.succ_le_succ_iff] at h
      have step : ProdGen.runN (⟨x :: xs, k, true, false⟩ : ProdGenState α)
          (n + 1) =
          (x :: (ProdGen.runN ⟨xs, k + 1, true, false⟩ n).1,
           (ProdGen.runN ⟨xs, k + 1, true, false⟩ n).2) := rfl
      rw [step, ih xs (k + 1) h]
      simp [ProdGenState.mk.injEq]
      omega

/-- Fully draining a freshly created generator with pending list `l`:
`l.length + 1` pulls yield exactly `l`, perform `l.length` updates, and
release the bar. -/
lemma ProdGen.runN_fresh_full {α : Type} (l : List (List α)) :
    (ProdGen.runN ⟨l, 0, false, false⟩ (l.length + 1)).1 = l
    ∧ (ProdGen.runN ⟨l, 0, false, false⟩ (l.length + 1)).2.updates = l.length
    ∧ (ProdGen.runN ⟨l, 0, false, false⟩ (l.length + 1)).2.closed = true := by
  match l with
  | [] => refine ⟨rfl, rfl, rfl⟩
  | x :: xs =>
    have step : ProdGen.runN (⟨x :: xs, 0, false, false⟩ : ProdGenState α)
        (xs.length + 1 + 1) =
        (x :: (ProdGen.runN ⟨xs, 0, true, false⟩ (xs.length + 1)).1,
         (ProdGen.runN ⟨xs, 0, true, false⟩ (xs.length + 1)).2) := rfl
    simp only [List.length_cons]
    rw [step, ProdGen.runN_suspended_full xs 0]
    simp

/-- Pulling `1 ≤ n ≤ pending` tuples from a freshly created generator with
pending list `l`: the first pull runs no `update()` (the body starts and
yields at once), each later pull resumes with one `update()`, so after
receiving `n` tuples the count is `n - 1` and the bar is still held. -/
lemma ProdGen.runN_fresh_take {α : Type} (l : List (List α)) (n : Nat)
    (h1 : 1 ≤ n) (h2 : n ≤ l.length) :
    ProdGen.runN ⟨l, 0, false, false⟩ n =
      (l.take n, ⟨l.drop n, n - 1, true, false⟩) := by
  match n, h1 with
  | m + 1, _ =>
    match l with
    | [] => simp at h2
    | x :: xs =>
      simp only [List.length_cons, Nat.succ_le_succ_iff] at h2
      have step : ProdGen.runN (⟨x :: xs, 0, false, false⟩ : ProdGenState α)
          (m + 1) =
          (x :: (ProdGen.runN ⟨xs, 0, true, false⟩ m).1,
           (ProdGen.runN ⟨xs, 0, true, false⟩ m).2) := rfl
      rw [step, ProdGen.runN_suspended_take m xs 0 h2]
      simp

/-- C6 — `tproduct` yields exactly the tuples of `itertools.product`, in
product order; full consumption of the generator (all tuples plus the
exhausting pull) executes one `update()` per produced tuple and exits the
`with` block, releasing the bar, which is also released on early
termination (`close`); concretely, `tproduct([1,2],[3,4])` yields
`(1,3),(1,4),(2,3),(2,4)` and reaches an update count of 4. -/
theorem tproduct_yields_product_order_and_count (its : List (List Nat))
    (rep : Nat) :
    (ProdGen.runN (ProdGen.init its rep) ((pyProduct its rep).length + 1)).1
        = pyProduct its rep
    ∧ (ProdGen.runN (ProdGen.init its rep)
        ((pyProduct its rep).length + 1)).2.updates = (pyProduct its rep).length
    ∧ (ProdGen.runN (ProdGen.init its rep)
        ((pyProduct its rep).length + 1)).2.closed = true
    ∧ (∀ s : ProdGenState Nat, (ProdGen.close s).closed = true)
    ∧ pyProduct [[1, 2], [3, 4]] 1 = [[1, 3], [1, 4], [2, 3], [2, 4]]
    ∧ (ProdGen.runN (ProdGen.init [[1, 2], [3, 4]] 1) 5).2.updates = 4 := by
  have h := ProdGen.runN_fresh_full (pyProduct its rep)
  exact ⟨h.1, h.2.1, h.2.2, fun s => rfl, by decide, by decide⟩

/-- C10 — the `update()` for the `n`-th produced tuple runs only when the
consumer pulls again (the update follows the `yield`): a consumer that
receives exactly `n ≥ 1` tuples and then abandons iteration leaves the
update count at `n - 1` (also after the generator is finalized), and the
count reaches `n` on one further pull, including the exhausting pull. -/
theorem tproduct_update_after_yield (its : List (List Nat)) (rep n : Nat)
    (h1 : 1 ≤ n) (h2 : n ≤ (pyProduct its rep).length) :
    (ProdGen.runN (ProdGen.init its rep) n).2.updates = n - 1
    ∧ (ProdGen.close (ProdGen.runN (ProdGen.init its rep) n).2).updates = n - 1
    ∧ (ProdGen.runN (ProdGen.init its rep) n).2.closed = false
    ∧ (ProdGen.runN (ProdGen.init its rep) (n + 1)).2.updates = n := by
  have htake := ProdGen.runN_fresh_take (pyProduct its rep) n h1 h2
  have hinit : ProdGen.init its rep =
      (⟨pyProduct its rep, 0, false, false⟩ : ProdGenState Nat) := rfl
  rw [hinit] at *
  refine ⟨by rw [htake], by rw [htake]; rfl, by rw [htake], ?_⟩
  rcases Nat.lt_or_ge n (pyProduct its rep).length with hlt | hge
  · have := ProdGen.runN_fresh_take (pyProduct its rep) (n + 1)
      (Nat.le_succ_of_le h1) hlt
    rw [this]
    simp
  · have hn : n = (pyProduct its rep).length := Nat.le_antisymm h2 hge
    have := ProdGen.runN_fresh_full (pyProduct its rep)
    rw [hn, this.2.1]

/-- Witness for C10 at `tproduct([1,2],[3,4])` with two tuples consumed. -/
theorem tproduct_update_after_yield_witness :
    (1 ≤ 2 ∧ 2 ≤ (pyProduct [[1, 2], [3, 4]] 1).length)
    ∧ ((ProdGen.runN (ProdGen.init [[1, 2], [3, 4]] 1) 2).2.updates = 1
       ∧ (ProdGen.close
            (ProdGen.runN (ProdGen.init [[1, 2], [3, 4]] 1) 2).2).updates = 1
       ∧ (ProdGen.runN (ProdGen.init [[1, 2], [3, 4]] 1) 2).2.closed = false
       ∧ (ProdGen.runN (ProdGen.init [[1, 2], [3, 4]] 1) 3).2.updates = 2) :=
  ⟨⟨by decide, by decide⟩,
   tproduct_update_after_yield [[1, 2], [3, 4]] 1 2 (by decide) (by decide)⟩

/-- C2 counterexample — auto-selection is NOT deferred to the moment
iteration begins: executing the module body of `aliases.py` in a plain
console environment (no IPython loaded) already runs the selector's probing
body once, before any adapter call or iteration, refuting "never at module
definition time". -/
theorem auto_select_eager_at_import :
    ¬ (moduleInit ⟨false, false, false, false, false⟩).probeCount = 0
    ∧ (moduleInit ⟨false, false, false, false, false⟩).probeCount = 1 := by
  constructor
  · decide
  · decide

/-- C2 amended — backend auto-selection is performed eagerly, exactly once,
at module definition time (`auto_tldm = _get_auto_tldm()`, aliases.py line
64); adapter calls never run the probing body again (with or without an
explicit class), and a caller-supplied `tldm_class` is the class actually
used to construct the progress bar, the precomputed `auto_tldm` being
ignored in that call. -/
theorem auto_select_module_level_resolution (env : Env) (xs ys : List Nat)
    (start : Int) (c : TldmClass) (rep : Nat) (ct : Option Nat) :
    (moduleInit env).probeCount = 1
    ∧ (resolveClass (moduleInit env) (some c)).1 = c
    ∧ (resolveClass (moduleInit env) (some c)).2 = moduleInit env
    ∧ (resolveClass (moduleInit env) none).1 = (moduleInit env).auto_tldm
    ∧ (resolveClass (moduleInit env) none).2 = moduleInit env
    ∧ (tenumerate (moduleInit env) xs start none (some c)).2.1.cls = c
    ∧ (tenumerate (moduleInit env) xs start none (some c)).2.2 = moduleInit env
    ∧ (tzip (moduleInit env) xs ys (some c)).2.1.cls = c
    ∧ (tzip (moduleInit env) xs ys (some c)).2.2 = moduleInit env
    ∧ (tproductSetup (moduleInit env) [⟨xs, .fromLen⟩] rep ct (some c)).1.cls = c
    ∧ (tproductSetup (moduleInit env) [⟨xs, .fromLen⟩] rep ct (some c)).2
        = moduleInit env := by
  refine ⟨rfl, rfl, rfl, rfl, rfl, rfl, rfl, rfl, rfl, ?_, ?_⟩ <;>
    simp [tproductSetup, resolveClass, mapLengthHints, length_hint]

/-- Evaluation of `list(map(length_hint, iterables))` succeeds with the true lengths when
every input implements `__len__`. -/
lemma mapLengthHints_fromLen {α : Type} (its : List (PyIterable α))
    (h : ∀ it ∈ its, it.hint = .fromLen) :
    mapLengthHints its = .ok (its.map fun it => it.items.length) := by
  induction its with
  | nil => rfl
  | cons it rest ih =>
    have h1 : it.hint = .fromLen := h it (List.mem_cons_self it rest)
    have h2 := ih fun x hx => h x (List.mem_cons_of_mem it hx)
    simp [mapLengthHints, length_hint, h1, h2]

/-- C3 counterexample — an input with no length hint at all (a generator:
no `__len__`, no `__length_hint__`) does not put `tproduct` into
indeterminate mode: `operator.length_hint` returns its default `0`, so the
constructor receives `total = 0` — neither the absent total the claim
requires for an unavailable hint, nor the true product of lengths
(`1 ** 1 = 1`) — for `tproduct(g)` with a one-element generator `g`. -/
theorem tproduct_total_claim_counterexample :
    (tproductSetup ⟨.std, 1⟩ [⟨[0], .noHint⟩] 1 none (some .std)).1.total
        = some 0
    ∧ (tproductSetup ⟨.std, 1⟩ [⟨[0], .noHint⟩] 1 none
        (some .std)).1.total ≠ none
    ∧ (tproductSetup ⟨.std, 1⟩ [⟨[0], .noHint⟩] 1 none
        (some .std)).1.total ≠ some ((([(0 : Nat)].length) ^ 1)) := by
  refine ⟨?_, ?_, ?_⟩ <;> decide

/-- C3 amended — the total is computed from `operator.length_hint` values,
not from true lengths: when `length_hint` succeeds on every input
(returning its default `0` for inputs with no hint), the constructor
receives `total = (product of the hint values) ** repeat` unless the caller
already supplied a total (the caller's value wins); in particular, when
every input implements `__len__` this is `(product of lengths) ** repeat`;
only when `length_hint` raises `TypeError` on some input (a malformed
`__length_hint__`) is no total set, the caller's value (if any) passing
through untouched. -/
theorem tproduct_total_from_length_hints (mod : ModuleState)
    (its : List (PyIterable Nat)) (rep : Nat) (ct : Option Nat)
    (clsOpt : Option TldmClass) :
    ((∀ it ∈ its, it.hint = .fromLen) →
      (tproductSetup mod its rep ct clsOpt).1.total =
        some (ct.getD (((its.map fun it => it.items.length).foldl
          (· * ·) 1) ^ rep)))
    ∧ (∀ lens, mapLengthHints its = .ok lens →
        (tproductSetup mod its rep ct clsOpt).1.total =
          some (ct.getD ((lens.foldl (· * ·) 1) ^ rep)))
    ∧ (mapLengthHints its = .error () →
        (tproductSetup mod its rep ct clsOpt).1.total = ct) := by
  refine ⟨?_, ?_, ?_⟩
  · intro h
    simp [tproductSetup, mapLengthHints_fromLen its h]
  · intro lens hlens
    simp [tproductSetup, hlens]
  · intro herr
    simp [tproductSetup, herr]

/-- Witness for the amended C3 at `tproduct([1,2],[3,4],[5])` (all inputs
with `__len__`, no caller total): the constructor receives
`total = (2*2*1) ** 1 = 4`. -/
theorem tproduct_total_from_length_hints_witness :
    (∀ it ∈ ([⟨[1, 2], .fromLen⟩, ⟨[3, 4], .fromLen⟩, ⟨[5], .fromLen⟩] :
        List (PyIterable Nat)), it.hint = .fromLen)
    ∧ (tproductSetup ⟨.std, 1⟩
        [⟨[1, 2], .fromLen⟩, ⟨[3, 4], .fromLen⟩, ⟨[5], .fromLen⟩] 1 none
        none).1.total =
      some (((([⟨[1, 2], .fromLen⟩, ⟨[3, 4], .fromLen⟩, ⟨[5], .fromLen⟩] :
        List (PyIterable Nat)).map fun it => it.items.length).foldl
          (· * ·) 1) ^ 1) :=
  ⟨by decide,
   (tproduct_total_from_length_hints ⟨.std, 1⟩
     [⟨[1, 2], .fromLen⟩, ⟨[3, 4], .fromLen⟩, ⟨[5], .fromLen⟩] 1 none
     none).1 (by decide)⟩

/-- C4 — `tenumerate(S, start)` yields exactly the pairs of the builtin
`enumerate(S, start)`, in order, for every integer `start` and every choice
of progress-bar class (explicit or auto-selected). -/
theorem tenumerate_matches_enumerate (mod : ModuleState) (S : List Nat)
    (start : Int) (total : Option Nat) (clsOpt : Option TldmClass)
    (_hS : S ≠ []) :
    (tenumerate mod S start total clsOpt).1 = pyEnumerate start S := by
  cases clsOpt <;> rfl

/-- Witness for C4 at `S = [7, 8]`, `start = -1`, an explicit custom
class. -/
theorem tenumerate_matches_enumerate_witness :
    ([7, 8] : List Nat) ≠ []
    ∧ (tenumerate ⟨.std, 1⟩ [7, 8] (-1) none (some (.custom 5))).1 =
        pyEnumerate (-1) [7, 8] :=
  ⟨by decide,
   tenumerate_matches_enumerate ⟨.std, 1⟩ [7, 8] (-1) none (some (.custom 5))
     (by decide)⟩

/-- C5 — for iterables of differing length, `tzip(A, B)` yields exactly the
tuples of the builtin `zip(A, B)`, stopping at the shorter input without
raising; only the first iterable is wrapped in the progress-bar class. -/
theorem tzip_matches_zip_shortest (mod : ModuleState) (A B : List Nat)
    (clsOpt : Option TldmClass) (_h : A.length ≠ B.length) :
    (tzip mod A B clsOpt).1 = List.zip A B
    ∧ (tzip mod A B clsOpt).1.length = min A.length B.length
    ∧ (tzip mod A B clsOpt).2.1.items = A := by
  refine ⟨?_, ?_, ?_⟩
  · cases clsOpt <;> rfl
  · cases clsOpt <;> simp [tzip, resolveClass, pbarIter]
  · cases clsOpt <;> rfl

/-- Witness for C5 at `A = [1, 2, 3]`, `B = [4, 5]`. -/
theorem tzip_matches_zip_shortest_witness :
    ([1, 2, 3] : List Nat).length ≠ ([4, 5] : List Nat).length
    ∧ ((tzip ⟨.std, 1⟩ [1, 2, 3] [4, 5] none).1 = List.zip [1, 2, 3] [4, 5]
       ∧ (tzip ⟨.std, 1⟩ [1, 2, 3] [4, 5] none).1.length =
           min ([1, 2, 3] : List Nat).length ([4, 5] : List Nat).length
       ∧ (tzip ⟨.std, 1⟩ [1, 2, 3] [4, 5] none).2.1.items = [1, 2, 3]) :=
  ⟨by decide, tzip_matches_zip_shortest ⟨.std, 1⟩ [1, 2, 3] [4, 5] none
    (by decide)⟩

/-- The restore loop `logger.handlers = original_handlers` over
`zip(loggers, original_handlers_list)` reinstates exactly the snapshot when
there is one snapshot entry per logger. -/
lemma zipWith_right_of_length_eq {α β : Type} (a : List α) (b : List β)
    (h : a.length = b.length) :
    List.zipWith (fun _ o => o) a b = b := by
  induction a generalizing b with
  | nil =>
    cases b with
    | nil => rfl
    | cons y ys => simp at h
  | cons x xs ih =>
    cases b with
    | nil => simp at h
    | cons y ys =>
      simp only [List.length_cons, Nat.succ.injEq] at h
      simp [List.zipWith, ih ys h]

/-- C1 — whichever way the `logging_redirect_tqdm` scope is exited (normal
completion or an exception propagating out of the body), every redirected
logger's handler list afterwards is the snapshot captured at entry: the
same handler objects, in the same order, even if the body rebound the
handler lists arbitrarily in between. -/
theorem logging_redirect_restores_snapshot (freshId0 : Nat)
    (cls : TldmClass) (initial bodyFinal : List (List Handler))
    (path : ExitPath) (h : bodyFinal.length = initial.length) :
    loggingRedirectRun freshId0 cls initial bodyFinal path = initial := by
  cases path <;>
    simp [loggingRedirectRun, restoreHandlers, zipWith_right_of_length_eq _ _ h]

/-- Witness for C1: two loggers (one with a console and a file handler, one
empty), a body that clobbers both handler lists, exiting via an
exception. -/
theorem logging_redirect_restores_snapshot_witness :
    ([[], [⟨9, .nonStream, .other 3, none, 10⟩]] :
        List (List Handler)).length =
      ([[⟨1, .plainStream, .stderr, some 4, 20⟩,
         ⟨2, .nonStream, .other 0, none, 0⟩], []] :
        List (List Handler)).length
    ∧ loggingRedirectRun 50 .std
        [[⟨1, .plainStream, .stderr, some 4, 20⟩,
          ⟨2, .nonStream, .other 0, none, 0⟩], []]
        [[], [⟨9, .nonStream, .other 3, none, 10⟩]] .exception =
        [[⟨1, .plainStream, .stderr, some 4, 20⟩,
          ⟨2, .nonStream, .other 0, none, 0⟩], []] :=
  ⟨by decide,
   logging_redirect_restores_snapshot 50 .std
     [[⟨1, .plainStream, .stderr, some 4, 20⟩,
       ⟨2, .nonStream, .other 0, none, 0⟩], []]
     [[], [⟨9, .nonStream, .other 3, none, 10⟩]] .exception (by decide)⟩

/-- C7 — entering the scope leaves each logger with exactly its prior
non-console handlers, unchanged and in order, followed by one new
redirecting handler bound to the given class; and when the prior handlers
contain a console handler, the first one's formatter, level and stream are
copied onto the new handler. -/
theorem logging_redirect_enter_shape (freshId : Nat) (cls : TldmClass)
    (hs : List Handler) :
    ∃ tq : Handler,
      redirectHandlers freshId cls hs =
        hs.filter (fun h => !_is_console_logging_handler h) ++ [tq]
      ∧ tq.kind = .tqdmRedirect cls
      ∧ tq.hid = freshId
      ∧ (∀ orig, _get_first_found_console_logging_handler hs = some orig →
          tq.formatter = orig.formatter ∧ tq.level = orig.level
          ∧ tq.stream = orig.stream)
      ∧ ((∃ h ∈ hs, _is_console_logging_handler h = true) →
          ∃ orig, _get_first_found_console_logging_handler hs = some orig
            ∧ _is_console_logging_handler orig = true) := by
  cases hfind : _get_first_found_console_logging_handler hs with
  | none =>
    refine ⟨mkTqdmHandler freshId cls, ?_, rfl, rfl, ?_, ?_⟩
    · simp [redirectHandlers, hfind]
    · intro orig horig
      cases horig
    · rintro ⟨h, hmem, hcons⟩
      unfold _get_first_found_console_logging_handler at hfind
      rw [List.find?_eq_none] at hfind
      exact absurd hcons (by simpa using hfind h hmem)
  | some orig =>
    refine ⟨{ mkTqdmHandler freshId cls with
              formatter := orig.formatter
              level := orig.level
              stream := orig.stream }, ?_, rfl, rfl, ?_, ?_⟩
    · simp [redirectHandlers, hfind]
    · intro o ho
      cases ho
      exact ⟨rfl, rfl, rfl⟩
    · intro _
      exact ⟨orig, rfl, List.find?_some hfind⟩

/-- Witness for C7: a logger with a file handler followed by a stdout
console handler carrying a formatter and level. -/
theorem logging_redirect_enter_shape_witness :
    ∃ tq : Handler,
      redirectHandlers 42 .std
          [⟨7, .nonStream, .other 1, none, 0⟩,
           ⟨8, .plainStream, .stdout, some 3, 30⟩] =
        ([⟨7, .nonStream, .other 1, none, 0⟩,
          ⟨8, .plainStream, .stdout, some 3, 30⟩] : List Handler).filter
            (fun h => !_is_console_logging_handler h) ++ [tq]
      ∧ tq.kind = .tqdmRedirect .std
      ∧ tq.hid = 42
      ∧ (∀ orig, _get_first_found_console_logging_handler
            [⟨7, .nonStream, .other 1, none, 0⟩,
             ⟨8, .plainStream, .stdout, some 3, 30⟩] = some orig →
          tq.formatter = orig.formatter ∧ tq.level = orig.level
          ∧ tq.stream = orig.stream)
      ∧ ((∃ h ∈ ([⟨7, .nonStream, .other 1, none, 0⟩,
            ⟨8, .plainStream, .stdout, some 3, 30⟩] : List Handler),
            _is_console_logging_handler h = true) →
          ∃ orig, _get_first_found_console_logging_handler
              [⟨7, .nonStream, .other 1, none, 0⟩,
               ⟨8, .plainStream, .stdout, some 3, 30⟩] = some orig
            ∧ _is_console_logging_handler orig = true) :=
  logging_redirect_enter_shape 42 .std
    [⟨7, .nonStream, .other 1, none, 0⟩,
     ⟨8, .plainStream, .stdout, some 3, 30⟩]

/-- C8 — for every record received by `emit`: on successful formatting the
formatted text is forwarded to the class's `write` with the handler's
stream, then the handler is flushed; every formatting / write / flush
failure is routed to `handleError` and never propagated, except that
`KeyboardInterrupt` / `SystemExit` always propagate immediately — `emit`
re-raises exactly when one of its steps raised an interruption. -/
theorem emit_routes_errors (stream : StreamId) (ops : EmitOps) :
    (∀ msg, ops.formatResult = .ok msg →
        (emit stream ops).2.writeCalledWith = some (msg, stream))
    ∧ (∀ msg, ops.formatResult = .ok msg → ops.writeResult msg = .ok () →
        ops.flushResult = .ok () →
        emit stream ops = (.returned, ⟨some (msg, stream), true, false⟩))
    ∧ (ops.formatResult = .error .error →
        emit stream ops = (.returned, ⟨none, false, true⟩))
    ∧ (∀ msg, ops.formatResult = .ok msg → ops.writeResult msg = .error .error →
        emit stream ops = (.returned, ⟨some (msg, stream), false, true⟩))
    ∧ (∀ msg, ops.formatResult = .ok msg → ops.writeResult msg = .ok () →
        ops.flushResult = .error .error →
        emit stream ops = (.returned, ⟨some (msg, stream), false, true⟩))
    ∧ (ops.formatResult = .error .interrupt →
        (emit stream ops).1 = .raisedInterrupt)
    ∧ (∀ msg, ops.formatResult = .ok msg →
        ops.writeResult msg = .error .interrupt →
        (emit stream ops).1 = .raisedInterrupt)
    ∧ (∀ msg, ops.formatResult = .ok msg → ops.writeResult msg = .ok () →
        ops.flushResult = .error .interrupt →
        (emit stream ops).1 = .raisedInterrupt)
    ∧ ((emit stream ops).1 = .raisedInterrupt →
        ops.formatResult = .error .interrupt
        ∨ ∃ msg, ops.formatResult = .ok msg
            ∧ (ops.writeResult msg = .error .interrupt
               ∨ (ops.writeResult msg = .ok ()
                  ∧ ops.flushResult = .error .interrupt))) := by
  refine ⟨?_, ?_, ?_, ?_, ?_, ?_, ?_, ?_, ?_⟩
  · intro msg hf
    cases hw : ops.writeResult msg with
    | error e => cases e <;> simp [emit, hf, hw]
    | ok u =>
      cases u
      cases hfl : ops.flushResult with
      | error e => cases e <;> simp [emit, hf, hw, hfl]
      | ok u => cases u; simp [emit, hf, hw, hfl]
  · intro msg hf hw hfl
    simp [emit, hf, hw, hfl]
  · intro hf
    simp [emit, hf]
  · intro msg hf hw
    simp [emit, hf, hw]
  · intro msg hf hw hfl
    simp [emit, hf, hw, hfl]
  · intro hf
    simp [emit, hf]
  · intro msg hf hw
    simp [emit, hf, hw]
  · intro msg hf hw hfl
    simp [emit, hf, hw, hfl]
  · intro hres
    cases hf : ops.formatResult with
    | error e =>
      cases e with
      | interrupt => exact Or.inl rfl
      | error => simp [emit, hf] at hres
    | ok msg =>
      refine Or.inr ⟨msg, rfl, ?_⟩
      cases hw : ops.writeResult msg with
      | error e =>
        cases e with
        | interrupt => exact Or.inl rfl
        | error => simp [emit, hf, hw] at hres
      | ok u =>
        cases u
        refine Or.inr ⟨rfl, ?_⟩
        cases hfl : ops.flushResult with
        | error e =>
          cases e with
          | interrupt => rfl
          | error => simp [emit, hf, hw, hfl] at hres
        | ok u => cases u; simp [emit, hf, hw, hfl] at hres

/-- Witness for C8: the all-successful emit of message `"m"` on the
handler's stderr stream. -/
theorem emit_routes_errors_witness :
    emit .stderr ⟨.ok "m", fun _ => .ok (), .ok ()⟩ =
      (.returned, ⟨some ("m", .stderr), true, false⟩) :=
  (emit_routes_errors .stderr ⟨.ok "m", fun _ => .ok (), .ok ()⟩).2.1
    "m" rfl rfl rfl

/-- C9 — `_get_auto_tldm` is total over every environment state: any probe
failure (IPython absent, `get_ipython()` raising, no kernel app configured,
notebook module or widget dependency missing) collapses to the standard
class via the catch-all `except Exception`; at most one warning is emitted,
exactly in the "notebook detected but widget dependency missing" case; the
notebook class is selected exactly when every probe succeeds. -/
theorem get_auto_tldm_never_raises (env : Env) :
    ((getAutoTldm env).cls = .std ∨ (getAutoTldm env).cls = .notebook)
    ∧ (getAutoTldmBodyRaised env = true → (getAutoTldm env).cls = .std)
    ∧ (getAutoTldm env).warnings ≤ 1
    ∧ ((getAutoTldm env).warnings = 1 ↔
        (env.ipythonLoaded = true ∧ env.getIPythonRaises = false
         ∧ env.kernelAppInConfig = true ∧ env.notebookModuleOk = true
         ∧ env.iprogressOk = false))
    ∧ ((getAutoTldm env).cls = .notebook ↔
        (env.ipythonLoaded = true ∧ env.getIPythonRaises = false
         ∧ env.kernelAppInConfig = true ∧ env.notebookModuleOk = true
         ∧ env.iprogressOk = true)) := by
  rcases env with ⟨a, b, c, d, e⟩
  cases a <;> cases b <;> cases c <;> cases d <;> cases e <;> decide

/-- Witness for C9: a detected notebook kernel whose widget dependency is
missing falls back to the standard class with exactly one warning. -/
theorem get_auto_tldm_never_raises_witness :
    ((getAutoTldm ⟨true, false, true, true, false⟩).cls = .std
     ∨ (getAutoTldm ⟨true, false, true, true, false⟩).cls = .notebook)
    ∧ (getAutoTldmBodyRaised ⟨true, false, true, true, false⟩ = true →
        (getAutoTldm ⟨true, false, true, true, false⟩).cls = .std)
    ∧ (getAutoTldm ⟨true, false, true, true, false⟩).warnings ≤ 1
    ∧ ((getAutoTldm ⟨true, false, true, true, false⟩).warnings = 1 ↔
        ((true : Bool) = true ∧ (false : Bool) = false
         ∧ (true : Bool) = true ∧ (true : Bool) = true
         ∧ (false : Bool) = false))
    ∧ ((getAutoTldm ⟨true, false, true, true, false⟩).cls = .notebook ↔
        ((true : Bool) = true ∧ (false : Bool) = false
         ∧ (true : Bool) = true ∧ (true : Bool) = true
         ∧ (false : Bool) = true)) :=
  get_auto_tldm_never_raises ⟨true, false, true, true, false⟩

end Tldm
